import Mathlib

/-!
Verification of the iDoklad-to-Fakturoid invoice conversion tool
(src/idoklad2fakturoid.py) against its natural-language specification.

The Python source is shallowly embedded below: dictionaries whose keys the
program reads become structures with those fields, exceptions become an
`Except Err` result, and the driver loop of `__main__` becomes explicit
recursion over the input list.  Dictionary-literal entries in Python are
evaluated top to bottom, which the embedding of `convert_invoice` mirrors
by the nesting order of its matches.
-/

namespace Idoklad2Fakturoid

/-- A Fakturoid subject as read by the program: only the keys
`registration_no` and `id` of the subject mapping are accessed
(source lines 92-96). -/
structure Subject where
  id : Int
  registration_no : String
deriving DecidableEq, Repr

/-- One entry of `idoklad_invoice['IssuedInvoiceItems']`, with the keys read
at source lines 129-137. -/
structure InvoiceItem where
  Code : String
  TotalPrice : Rat
  Name : String
  Amount : Rat
  UnitPrice : Rat
  VatRate : Rat
deriving DecidableEq, Repr

/-- `idoklad_invoice['Purchaser']` (source line 105). -/
structure Purchaser where
  IdentificationNumber : String
deriving DecidableEq, Repr

/-- `idoklad_invoice['MyCompanyDocumentAddress']` (source lines 113-118). -/
structure MyCompanyDocumentAddress where
  AccountNumber : String
  BankNumberCode : String
  Iban : String
  Swift : String
deriving DecidableEq, Repr

/-- `idoklad_invoice['PaymentOption']` (source line 119). -/
structure PaymentOption where
  Code : String
deriving DecidableEq, Repr

/-- `idoklad_invoice['Currency']` (source line 120). -/
structure Currency where
  Code : String
deriving DecidableEq, Repr

/-- A source invoice record, with exactly the keys the converter reads
(source lines 99-138). -/
structure IdokladInvoice where
  DocumentNumber : String
  VariableSymbol : String
  Purchaser : Purchaser
  OrderNumber : String
  DateOfIssue : String
  DateOfTaxing : String
  Maturity : String
  ItemsTextPrefix : String
  ItemsTextSuffix : String
  Note : String
  MyCompanyDocumentAddress : MyCompanyDocumentAddress
  PaymentOption : PaymentOption
  Currency : Currency
  ExchangeRate : Rat
  IssuedInvoiceItems : List InvoiceItem
deriving DecidableEq, Repr

/-- One destination line item produced at source lines 132-137. -/
structure FakturoidLine where
  name : String
  quantity : Rat
  unit_price : Rat
  vat_rate : Rat
deriving DecidableEq, Repr

/-- The destination invoice record built by `convert_invoice`
(source lines 102-124). -/
structure FakturoidInvoice where
  number : String
  variable_symbol : String
  subject_id : Int
  order_number : String
  issued_on : String
  taxable_fulfillment_due : String
  due : String
  note : String
  footer_note : String
  private_note : String
  bank_account : String
  iban : String
  swift_bic : String
  payment_method : String
  currency : String
  exchange_rate : Rat
  language : String
  lines : List FakturoidLine
deriving DecidableEq, Repr

/-- The exceptions the program raises.  `subjectNotFound` and
`unknownPaymentMethod` carry the offending value, as the corresponding
`raise Exception(MESSAGES[...], value)` calls do (source lines 89, 96).
`typeError` models the TypeError the Python runtime raises;
`requestFailed` models the error of source lines 38 and 46. -/
inductive Err
  | subjectNotFound (registration_no : String)
  | unknownPaymentMethod (code : String)
  | typeError (msg : String)
  | requestFailed (method : String) (path : String) (status : Nat)
deriving DecidableEq, Repr

/-- Source lines 85-89: translate an iDoklad payment-method code. -/
def make_fakturoid_payment_method (idoklad_code : String) : Except Err String :=
  if idoklad_code = "B" then
    Except.ok "bank"
  else
    Except.error (Err.unknownPaymentMethod idoklad_code)

/-- Source lines 92-96: linear scan over the subject list, returning the
`id` of the first subject whose `registration_no` matches. -/
def find_fakturoid_subject_id (fakturoid_subjects : List Subject)
    (registration_no : String) : Except Err Int :=
  match fakturoid_subjects with
  | [] => Except.error (Err.subjectNotFound registration_no)
  | subject :: rest =>
    if subject.registration_no = registration_no then
      Except.ok subject.id
    else
      find_fakturoid_subject_id rest registration_no

/-- Source lines 113-116: the program calls `"/".join(a, b)`.  Python's
`str.join` takes a single iterable argument, so this call raises
`TypeError: join() takes exactly one argument (2 given)` regardless of the
two argument values (which are evaluated first and discarded here). -/
def str_join_two_args (_sep _a _b : String) : Except Err String :=
  Except.error (Err.typeError "join() takes exactly one argument (2 given)")

/-- The loop body of source lines 129-137, peeled into recursion over the
item list: skip an item when its `Code` is `"ZaokPol"` and its
`TotalPrice` is `0`, otherwise append the converted item. -/
def convert_items : List InvoiceItem → List FakturoidLine
  | [] => []
  | item :: rest =>
    if item.Code = "ZaokPol" ∧ item.TotalPrice = 0 then
      convert_items rest
    else
      { name := item.Name
        quantity := item.Amount
        unit_price := item.UnitPrice
        vat_rate := item.VatRate } :: convert_items rest

/-- Source lines 127-138: convert the line items of an invoice. -/
def convert_invoice_lines (idoklad_invoice : IdokladInvoice) : List FakturoidLine :=
  convert_items idoklad_invoice.IssuedInvoiceItems

/-- Source lines 99-124: convert one iDoklad invoice to a Fakturoid invoice.
Python evaluates the entries of the dictionary literal top to bottom, so
the fallible computations run in source order: the subject lookup
(line 105), then the `bank_account` join (line 113), then the
payment-method translation (line 119); the first failure propagates. -/
def convert_invoice (idoklad_invoice : IdokladInvoice)
    (fakturoid_subjects : List Subject) : Except Err FakturoidInvoice :=
  match find_fakturoid_subject_id fakturoid_subjects
      idoklad_invoice.Purchaser.IdentificationNumber with
  | Except.error e => Except.error e
  | Except.ok subject_id =>
    match str_join_two_args "/"
        idoklad_invoice.MyCompanyDocumentAddress.AccountNumber
        idoklad_invoice.MyCompanyDocumentAddress.BankNumberCode with
    | Except.error e => Except.error e
    | Except.ok bank_account =>
      match make_fakturoid_payment_method idoklad_invoice.PaymentOption.Code with
      | Except.error e => Except.error e
      | Except.ok payment_method =>
        Except.ok
          { number := idoklad_invoice.DocumentNumber
            variable_symbol := idoklad_invoice.VariableSymbol
            subject_id := subject_id
            order_number := idoklad_invoice.OrderNumber
            issued_on := idoklad_invoice.DateOfIssue
            taxable_fulfillment_due := idoklad_invoice.DateOfTaxing
            due := idoklad_invoice.Maturity
            note := idoklad_invoice.ItemsTextPrefix
            footer_note := idoklad_invoice.ItemsTextSuffix
            private_note := idoklad_invoice.Note
            bank_account := bank_account
            iban := idoklad_invoice.MyCompanyDocumentAddress.Iban
            swift_bic := idoklad_invoice.MyCompanyDocumentAddress.Swift
            payment_method := payment_method
            currency := idoklad_invoice.Currency.Code
            exchange_rate := idoklad_invoice.ExchangeRate
            language := "en"
            lines := convert_invoice_lines idoklad_invoice }

/-- The per-invoice loop of the driver (source lines 172-175): iterate the
input records in order; for each, convert and, when conversion succeeds,
call the remote `create_invoice` on the result.  `remote_create` stands
for the Fakturoid API; its argument list in the returned pair records, in
order, every record on which a remote creation call was attempted.  An
exception from the converter or the remote client is not caught: it stops
the loop and is returned, leaving the remaining records unprocessed. -/
def create_invoices (remote_create : FakturoidInvoice → Except Err Unit)
    (fakturoid_subjects : List Subject) :
    List IdokladInvoice → List FakturoidInvoice × Option Err
  | [] => ([], none)
  | idoklad_invoice :: rest =>
    match convert_invoice idoklad_invoice fakturoid_subjects with
    | Except.error e => ([], some e)
    | Except.ok fakturoid_invoice =>
      match remote_create fakturoid_invoice with
      | Except.error e => ([fakturoid_invoice], some e)
      | Except.ok _ =>
        let result := create_invoices remote_create fakturoid_subjects rest
        (fakturoid_invoice :: result.1, result.2)

/-- The cache table of `__main__`: a Python dictionary whose values are
subject lists (the program stores the single key `"fakturoid_subjects"`,
source lines 165-169), embedded as an association list keyed by the first
occurrence of a key. -/
def Cache := List (String × List Subject)

instance : DecidableEq Cache := by
  unfold Cache
  exact inferInstance

/-- `key in cache` (source line 165). -/
def cacheHas (cache : Cache) (key : String) : Bool :=
  cache.any (fun entry => entry.1 == key)

/-- `cache[key]` (source lines 167, 169): the value at the first occurrence
of the key. -/
def cacheGet (cache : Cache) (key : String) : Option (List Subject) :=
  (cache.find? (fun entry => entry.1 == key)).map Prod.snd

/-- `cache[key] = value` (source line 167): overwrite the first occurrence
of the key, or append the binding when the key is absent. -/
def cacheSet (cache : Cache) (key : String) (value : List Subject) : Cache :=
  match cache with
  | [] => [(key, value)]
  | entry :: rest =>
    if entry.1 = key then
      (key, value) :: rest
    else
      entry :: cacheSet rest key value

/-- Outcome of the subjects-fetch step of the driver. -/
structure FetchResult where
  cache : Cache
  fakturoid_subjects : List Subject
  remote_calls : Nat
  saved : Bool
deriving DecidableEq

/-- Source lines 164-169: if `'fakturoid_subjects'` is not in the cache,
fetch the subject list from the Fakturoid API (`remote_subjects` stands
for the response of `fakturoid.get_subjects()`), store it in the cache and
dump the cache to disk; then read `cache['fakturoid_subjects']`.
`remote_calls` counts the `get_subjects` calls issued and `saved` records
whether `pickle.dump` ran. -/
def fetch_subjects (cache : Cache) (remote_subjects : List Subject) : FetchResult :=
  if cacheHas cache "fakturoid_subjects" then
    { cache := cache
      fakturoid_subjects := (cacheGet cache "fakturoid_subjects").getD []
      remote_calls := 0
      saved := false }
  else
    let cache' := cacheSet cache "fakturoid_subjects" remote_subjects
    { cache := cache'
      fakturoid_subjects := (cacheGet cache' "fakturoid_subjects").getD []
      remote_calls := 1
      saved := true }

/-- A token of the serialized cache file.  The program serializes the cache
with `pickle` (source lines 147, 168), which is outside this repository.
Modelled from the spec: "a single binary-serialized file ... holding one
mapping", whose "format is implementation-internal ... but must round-trip
a sequence of Subject mappings"; the byte stream is abstracted to a stream
of primitive tokens. -/
inductive Tok
  | nat (n : Nat)
  | int (i : Int)
  | str (s : String)
deriving DecidableEq, Repr

/-- Serialize one subject. -/
def encodeSubject (s : Subject) : List Tok :=
  [Tok.int s.id, Tok.str s.registration_no]

/-- Serialize a subject list, length-prefixed. -/
def encodeSubjects (l : List Subject) : List Tok :=
  Tok.nat l.length :: (l.map encodeSubject).flatten

/-- Serialize one cache entry. -/
def encodeEntry (entry : String × List Subject) : List Tok :=
  Tok.str entry.1 :: encodeSubjects entry.2

/-- Modelled from the spec: `pickle.dump` for the cache table — serialize
the mapping, length-prefixed, entry by entry. -/
def pickle_dump (cache : Cache) : List Tok :=
  Tok.nat cache.length :: (cache.map encodeEntry).flatten

/-- Parse one subject from the token stream. -/
def decodeSubject : List Tok → Option (Subject × List Tok)
  | Tok.int i :: Tok.str r :: rest => some ({ id := i, registration_no := r }, rest)
  | _ => none

/-- Parse `n` subjects from the token stream. -/
def decodeSubjects : Nat → List Tok → Option (List Subject × List Tok)
  | 0, rest => some ([], rest)
  | n + 1, toks =>
    match decodeSubject toks with
    | none => none
    | some (s, rest) =>
      match decodeSubjects n rest with
      | none => none
      | some (l, rest') => some (s :: l, rest')

/-- Parse one cache entry from the token stream. -/
def decodeEntry : List Tok → Option ((String × List Subject) × List Tok)
  | Tok.str key :: Tok.nat n :: rest =>
    match decodeSubjects n rest with
    | none => none
    | some (l, rest') => some ((key, l), rest')
  | _ => none

/-- Parse `n` cache entries from the token stream. -/
def decodeEntries : Nat → List Tok → Option (Cache × List Tok)
  | 0, rest => some (([] : Cache), rest)
  | n + 1, toks =>
    match decodeEntry toks with
    | none => none
    | some (entry, rest) =>
      match decodeEntries n rest with
      | none => none
      | some (cache, rest') => some ((entry :: cache : Cache), rest')

/-- Modelled from the spec: `pickle.load` for the cache table — parse one
serialized mapping from the start of the file, failing on malformed
input. -/
def pickle_load (toks : List Tok) : Option Cache :=
  match toks with
  | Tok.nat n :: rest =>
    match decodeEntries n rest with
    | none => none
    | some (cache, _) => some cache
  | _ => none

/-- The cache file as seen by `pickle.load(open(CACHE_FILE, 'rb'))`
(source line 147): either absent (`open` raises IOError) or present with
some content. -/
inductive CacheFile
  | absent
  | content (toks : List Tok)
deriving DecidableEq

/-- Outcome of loading the cache: the table the run continues with and
whether the warning of source line 151 was printed. -/
structure LoadResult where
  cache : Cache
  warned : Bool
deriving DecidableEq

/-- Source lines 145-152: try to unpickle the cache file; on IOError (file
absent) continue with an empty table silently, on any other exception
(malformed content) print a warning and continue with an empty table. -/
def cache_load (file : CacheFile) : LoadResult :=
  match file with
  | CacheFile.absent => { cache := ([] : Cache), warned := false }
  | CacheFile.content toks =>
    match pickle_load toks with
    | some cache => { cache := cache, warned := false }
    | none => { cache := ([] : Cache), warned := true }

/-! Concrete example data used to instantiate the theorems below. -/

/-- A cached subject with registration number `"11111111"`. -/
def subjectA : Subject := { id := 1, registration_no := "11111111" }

/-- A one-subject cache content. -/
def exampleSubjects : List Subject := [subjectA]

/-- Two cached subjects sharing one registration number. -/
def duplicateSubjects : List Subject :=
  [{ id := 1, registration_no := "11111111" }, { id := 2, registration_no := "11111111" }]

/-- Two source line items: an ordinary one and a zero-priced rounding one. -/
def exampleItems : List InvoiceItem :=
  [{ Code := "K1", TotalPrice := 100, Name := "Consulting", Amount := 2,
     UnitPrice := 50, VatRate := 21 },
   { Code := "ZaokPol", TotalPrice := 0, Name := "Rounding", Amount := 1,
     UnitPrice := 0, VatRate := 0 }]

/-- A source invoice with the given document number, purchaser registration
number and payment code. -/
def mkInvoice (document_number registration_no payment_code : String) : IdokladInvoice :=
  { DocumentNumber := document_number
    VariableSymbol := "123"
    Purchaser := { IdentificationNumber := registration_no }
    OrderNumber := "1"
    DateOfIssue := "2016-01-01"
    DateOfTaxing := "2016-01-01"
    Maturity := "2016-01-15"
    ItemsTextPrefix := "head"
    ItemsTextSuffix := "foot"
    Note := "note"
    MyCompanyDocumentAddress :=
      { AccountNumber := "123456789", BankNumberCode := "0800",
        Iban := "CZ6508000000000123456789", Swift := "GIBACZPX" }
    PaymentOption := { Code := payment_code }
    Currency := { Code := "CZK" }
    ExchangeRate := 1
    IssuedInvoiceItems := exampleItems }

/-- An invoice whose purchaser matches `subjectA` and pays by bank. -/
def invoiceA : IdokladInvoice := mkInvoice "20160001" "11111111" "B"

/-- An invoice whose purchaser matches no example subject. -/
def invoiceB : IdokladInvoice := mkInvoice "20160002" "22222222" "B"

/-- An invoice with an unmatched purchaser and a non-bank payment code. -/
def invoiceC : IdokladInvoice := mkInvoice "20160003" "33333333" "C"

/-! Helper lemmas. -/

/-- If some subject in the list carries the registration number, the linear
scan succeeds. -/
theorem find_ok_of_mem (subjects : List Subject) (r : String)
    (h : ∃ s ∈ subjects, s.registration_no = r) :
    ∃ i, find_fakturoid_subject_id subjects r = Except.ok i := by
  induction subjects with
  | nil => simp at h
  | cons s rest ih =>
    by_cases hs : s.registration_no = r
    · exact ⟨s.id, by simp [find_fakturoid_subject_id, hs]⟩
    · obtain ⟨t, ht, hr⟩ := h
      rcases List.mem_cons.mp ht with rfl | htr
      · exact absurd hr hs
      · obtain ⟨i, hi⟩ := ih ⟨t, htr, hr⟩
        exact ⟨i, by simp [find_fakturoid_subject_id, hs, hi]⟩

/-- If no subject in the list carries the registration number, the linear
scan fails with `subjectNotFound`. -/
theorem find_err_of_no_match (subjects : List Subject) (r : String)
    (h : ∀ s ∈ subjects, s.registration_no ≠ r) :
    find_fakturoid_subject_id subjects r = Except.error (Err.subjectNotFound r) := by
  induction subjects with
  | nil => rfl
  | cons s rest ih =>
    have hs : s.registration_no ≠ r := h s (List.mem_cons_self s rest)
    rw [find_fakturoid_subject_id, if_neg hs]
    exact ih fun t ht => h t (List.mem_cons_of_mem s ht)

/-- When the subject lookup succeeds, `convert_invoice` reaches the
two-argument `join` and fails with its TypeError. -/
theorem convert_typeError_of_find_ok (idoklad_invoice : IdokladInvoice)
    (subjects : List Subject) (i : Int)
    (h : find_fakturoid_subject_id subjects
        idoklad_invoice.Purchaser.IdentificationNumber = Except.ok i) :
    convert_invoice idoklad_invoice subjects =
      Except.error (Err.typeError "join() takes exactly one argument (2 given)") := by
  rw [convert_invoice, h]
  rfl

/-- When the subject lookup fails, `convert_invoice` propagates its error. -/
theorem convert_error_of_find_err (idoklad_invoice : IdokladInvoice)
    (subjects : List Subject) (e : Err)
    (h : find_fakturoid_subject_id subjects
        idoklad_invoice.Purchaser.IdentificationNumber = Except.error e) :
    convert_invoice idoklad_invoice subjects = Except.error e := by
  rw [convert_invoice, h]

/-- Mapping applied to a retained line item (source lines 132-137). -/
def convertItem (item : InvoiceItem) : FakturoidLine :=
  { name := item.Name
    quantity := item.Amount
    unit_price := item.UnitPrice
    vat_rate := item.VatRate }

/-- The item loop equals a filter (drop exactly the zero-priced `"ZaokPol"`
items) followed by the per-item field mapping. -/
theorem convert_items_eq_filter_map (items : List InvoiceItem) :
    convert_items items =
      (items.filter fun item =>
        !(item.Code == "ZaokPol" && item.TotalPrice == 0)).map convertItem := by
  induction items with
  | nil => rfl
  | cons item rest ih =>
    by_cases h : item.Code = "ZaokPol" ∧ item.TotalPrice = 0
    · simp [convert_items, h, List.filter_cons, h.1, h.2, ih]
    · rw [convert_items, if_neg h]
      rw [List.filter_cons]
      have hb : (!(item.Code == "ZaokPol" && item.TotalPrice == 0)) = true := by
        simp
        tauto
      rw [if_pos hb, List.map_cons, ih]
      rfl

/-- After storing a value under a key, the key is present. -/
theorem cacheHas_cacheSet (cache : Cache) (key : String) (value : List Subject) :
    cacheHas (cacheSet cache key value) key = true := by
  induction cache with
  | nil => simp [cacheSet, cacheHas]
  | cons entry rest ih =>
    by_cases h : entry.1 = key
    · simp [cacheSet, h, cacheHas]
    · rw [cacheSet, if_neg h]
      simp only [cacheHas, List.any_cons, Bool.or_eq_true, beq_iff_eq]
      exact Or.inr (by simpa [cacheHas] using ih)

/-- Decoding after encoding recovers a subject and leaves the rest of the
stream untouched. -/
theorem decodeSubject_encode (s : Subject) (rest : List Tok) :
    decodeSubject (encodeSubject s ++ rest) = some (s, rest) := rfl

/-- Decoding after encoding recovers a subject list. -/
theorem decodeSubjects_encode (l : List Subject) (rest : List Tok) :
    decodeSubjects l.length ((l.map encodeSubject).flatten ++ rest) = some (l, rest) := by
  induction l generalizing rest with
  | nil => rfl
  | cons s tl ih =>
    simp only [List.length_cons, List.map_cons, List.flatten_cons, List.append_assoc]
    simp [decodeSubjects, decodeSubject_encode, ih]

/-- Decoding after encoding recovers a cache entry. -/
theorem decodeEntry_encode (entry : String × List Subject) (rest : List Tok) :
    decodeEntry (encodeEntry entry ++ rest) = some (entry, rest) := by
  show decodeEntry
      (Tok.str entry.1 :: Tok.nat entry.2.length ::
        ((entry.2.map encodeSubject).flatten ++ rest)) = some (entry, rest)
  rw [decodeEntry, decodeSubjects_encode]

/-- Decoding after encoding recovers the whole entry list. -/
theorem decodeEntries_encode (cache : Cache) (rest : List Tok) :
    decodeEntries cache.length ((cache.map encodeEntry).flatten ++ rest) =
      some (cache, rest) := by
  induction cache generalizing rest with
  | nil => rfl
  | cons entry tl ih =>
    simp only [List.length_cons, List.map_cons, List.flatten_cons, List.append_assoc]
    simp [decodeEntries, decodeEntry_encode, ih]

/-! Claim theorems. -/

/-- C1: the claim states that for an invoice whose purchaser registration
number occurs in the subject list, `convert_invoice` produces a record whose
`subject_id` is the id of the first matching subject.  On the code this
fails: the lookup itself does return the first matching subject's id (here
`1`, not `2`, despite the duplicate registration number), but
`convert_invoice` never produces a record — once the lookup succeeds it
always fails with the TypeError of the two-argument `"/".join` while
building `bank_account`. -/
theorem convert_invoice_never_returns_record :
    find_fakturoid_subject_id duplicateSubjects "11111111" = Except.ok 1 ∧
    convert_invoice invoiceA duplicateSubjects =
      Except.error (Err.typeError "join() takes exactly one argument (2 given)") :=
  ⟨rfl, rfl⟩

/-- C2: `convert_invoice_lines` keeps the source line items in their
original order, mapping each to a destination item with name, quantity,
unit price and VAT rate, and drops an item if and only if its code is
`"ZaokPol"` and its total price is `0`. -/
theorem convert_invoice_lines_filter_spec (idoklad_invoice : IdokladInvoice) :
    convert_invoice_lines idoklad_invoice =
      (idoklad_invoice.IssuedInvoiceItems.filter fun item =>
        !(item.Code == "ZaokPol" && item.TotalPrice == 0)).map convertItem :=
  convert_items_eq_filter_map idoklad_invoice.IssuedInvoiceItems

/-- C3: for every invoice whose purchaser registration number matches a
cached subject, `convert_invoice` fails with the TypeError-equivalent of
the two-argument `"/".join` while constructing the bank account. -/
theorem convert_invoice_bank_account_type_error (idoklad_invoice : IdokladInvoice)
    (subjects : List Subject)
    (h : ∃ s ∈ subjects,
      s.registration_no = idoklad_invoice.Purchaser.IdentificationNumber) :
    convert_invoice idoklad_invoice subjects =
      Except.error (Err.typeError "join() takes exactly one argument (2 given)") := by
  obtain ⟨i, hi⟩ := find_ok_of_mem _ _ h
  exact convert_typeError_of_find_ok _ _ i hi

/-- Witness for C3 at a concrete invoice and subject list. -/
theorem convert_invoice_bank_account_type_error_witness :
    convert_invoice invoiceA exampleSubjects =
      Except.error (Err.typeError "join() takes exactly one argument (2 given)") :=
  convert_invoice_bank_account_type_error invoiceA exampleSubjects (by decide)

/-- C4: for every invoice whose purchaser registration number matches no
cached subject, `convert_invoice` fails with `subjectNotFound` carrying
that registration number, and the driver loop attempts no remote
invoice-creation call for that record (the attempted-call list is empty and
the error propagates). -/
theorem subject_not_found_no_creation (idoklad_invoice : IdokladInvoice)
    (subjects : List Subject)
    (h : ∀ s ∈ subjects,
      s.registration_no ≠ idoklad_invoice.Purchaser.IdentificationNumber) :
    convert_invoice idoklad_invoice subjects =
      Except.error (Err.subjectNotFound idoklad_invoice.Purchaser.IdentificationNumber) ∧
    ∀ (remote_create : FakturoidInvoice → Except Err Unit)
      (rest : List IdokladInvoice),
      create_invoices remote_create subjects (idoklad_invoice :: rest) =
        ([], some (Err.subjectNotFound
          idoklad_invoice.Purchaser.IdentificationNumber)) := by
  have hf := find_err_of_no_match subjects _ h
  have hc := convert_error_of_find_err idoklad_invoice subjects _ hf
  refine ⟨hc, fun remote_create rest => ?_⟩
  simp [create_invoices, hc]

/-- Witness for C4 at a concrete invoice and subject list. -/
theorem subject_not_found_no_creation_witness :
    create_invoices (fun _ => Except.ok ()) exampleSubjects [invoiceB] =
      ([], some (Err.subjectNotFound "22222222")) :=
  (subject_not_found_no_creation invoiceB exampleSubjects (by decide)).2
    (fun _ => Except.ok ()) []

/-- C5: the payment-method translation maps `"B"` to `"bank"` and fails
with `unknownPaymentMethod` carrying the code on every other input. -/
theorem payment_method_translation :
    make_fakturoid_payment_method "B" = Except.ok "bank" ∧
    ∀ code : String, code ≠ "B" →
      make_fakturoid_payment_method code =
        Except.error (Err.unknownPaymentMethod code) := by
  refine ⟨rfl, fun code hc => ?_⟩
  simp [make_fakturoid_payment_method, hc]

/-- Witness for C5 at a concrete unrecognized code. -/
theorem payment_method_translation_witness :
    make_fakturoid_payment_method "P" =
      Except.error (Err.unknownPaymentMethod "P") :=
  payment_method_translation.2 "P" (by decide)

/-- C6: the claim's end-to-end scenario fails on the code.  With two input
invoices — the first purchaser matching a cached subject, the second not —
the claim expects exactly one created invoice and a terminating
`subjectNotFound`; the code instead terminates on the first invoice with
the TypeError of the two-argument `"/".join`, attempting no creation call
at all. -/
theorem driver_two_invoice_scenario :
    create_invoices (fun _ => Except.ok ()) exampleSubjects [invoiceA, invoiceB] =
      ([], some (Err.typeError "join() takes exactly one argument (2 given)")) :=
  rfl

/-- C7: when the cache already holds the subjects key the driver issues no
remote fetch and does not rewrite the cache; the remote call count never
exceeds one; when the key is absent exactly one fetch happens and the cache
is saved immediately; and running the fetch step again on the resulting
cache issues no further remote call. -/
theorem fetch_subjects_at_most_once (cache : Cache)
    (remote_subjects remote_subjects' : List Subject) :
    (cacheHas cache "fakturoid_subjects" = true →
      fetch_subjects cache remote_subjects =
        { cache := cache
          fakturoid_subjects := (cacheGet cache "fakturoid_subjects").getD []
          remote_calls := 0
          saved := false }) ∧
    (fetch_subjects cache remote_subjects).remote_calls ≤ 1 ∧
    (cacheHas cache "fakturoid_subjects" = false →
      (fetch_subjects cache remote_subjects).remote_calls = 1 ∧
      (fetch_subjects cache remote_subjects).saved = true) ∧
    (fetch_subjects (fetch_subjects cache remote_subjects).cache
      remote_subjects').remote_calls = 0 := by
  by_cases hc : cacheHas cache "fakturoid_subjects" = true
  · refine ⟨fun _ => ?_, ?_, fun h => ?_, ?_⟩
    · simp [fetch_subjects, hc]
    · simp [fetch_subjects, hc]
    · rw [hc] at h
      cases h
    · simp [fetch_subjects, hc]
  · have hc' : cacheHas cache "fakturoid_subjects" = false := by
      simpa using hc
    refine ⟨fun h => absurd h hc, ?_, fun _ => ?_, ?_⟩
    · simp [fetch_subjects, hc']
    · simp [fetch_subjects, hc']
    · simp [fetch_subjects, hc', cacheHas_cacheSet]

/-- Witness for C7 at a concrete already-populated cache. -/
theorem fetch_subjects_at_most_once_witness :
    fetch_subjects ([("fakturoid_subjects", [subjectA])] : Cache) [] =
      { cache := [("fakturoid_subjects", [subjectA])]
        fakturoid_subjects := [subjectA]
        remote_calls := 0
        saved := false } :=
  (fetch_subjects_at_most_once ([("fakturoid_subjects", [subjectA])] : Cache)
    [] []).1 rfl

/-- C8: loading the serialized cache file written for a table recovers a
structurally identical table — the same mapping with the same nested
sequence of subjects. -/
theorem cache_round_trip (cache : Cache) :
    pickle_load (pickle_dump cache) = some cache := by
  have h := decodeEntries_encode cache []
  rw [List.append_nil] at h
  simp [pickle_load, pickle_dump, h]

/-- C9: cache loading never aborts the run — an absent file yields the
empty table silently, and any content the deserializer rejects yields the
empty table together with the non-fatal warning. -/
theorem cache_load_never_aborts :
    cache_load CacheFile.absent = { cache := ([] : Cache), warned := false } ∧
    ∀ toks : List Tok, pickle_load toks = none →
      cache_load (CacheFile.content toks) =
        { cache := ([] : Cache), warned := true } := by
  refine ⟨rfl, fun toks h => ?_⟩
  simp [cache_load, h]

/-- Witness for C9 at a concrete malformed cache file. -/
theorem cache_load_never_aborts_witness :
    cache_load (CacheFile.content [Tok.int 0]) =
      { cache := ([] : Cache), warned := true } :=
  cache_load_never_aborts.2 [Tok.int 0] rfl

/-- C10: the subject lookup is evaluated before the payment-method
translation: an invoice with an unmatched purchaser and a non-`"B"` payment
code fails with `subjectNotFound`, not with `unknownPaymentMethod`. -/
theorem subject_lookup_precedes_payment_method (idoklad_invoice : IdokladInvoice)
    (subjects : List Subject)
    (h : ∀ s ∈ subjects,
      s.registration_no ≠ idoklad_invoice.Purchaser.IdentificationNumber)
    (_hcode : idoklad_invoice.PaymentOption.Code ≠ "B") :
    convert_invoice idoklad_invoice subjects =
      Except.error (Err.subjectNotFound
        idoklad_invoice.Purchaser.IdentificationNumber) ∧
    convert_invoice idoklad_invoice subjects ≠
      Except.error (Err.unknownPaymentMethod
        idoklad_invoice.PaymentOption.Code) := by
  have hc := convert_error_of_find_err idoklad_invoice subjects _
    (find_err_of_no_match subjects _ h)
  exact ⟨hc, by rw [hc]; simp⟩

/-- Witness for C10 at a concrete invoice with payment code `"C"` and an
unmatched purchaser. -/
theorem subject_lookup_precedes_payment_method_witness :
    convert_invoice invoiceC exampleSubjects =
      Except.error (Err.subjectNotFound "33333333") :=
  (subject_lookup_precedes_payment_method invoiceC exampleSubjects
    (by decide) (by decide)).1

end Idoklad2Fakturoid
